import Mathlib

/-!
Verification of the ChatBet assistant real-time session and message-delivery
layer against its implementation.  The definitions below are shallow
embeddings of the TypeScript sources of the repository:

* generateUUID                  (src/chatbet-frontend/src/app/utils/common.utils.ts)
* ChatService session handling  (src/chatbet-frontend/src/app/services/chat.service.ts)
* WebSocketService              (src/chatbet-frontend/src/app/services/chat.service.ts,
                                 reconnection, heartbeat and frame handling)
* environment.websocket         (src/chatbet-frontend/src/environments/environment.ts)
* Deduplication Store           (backend component, modelled from the spec)

Randomness (Math.random) is modelled by an explicit stream of natural-number
draws; times are naturals in milliseconds.
-/

/-! ## generateUUID (common.utils.ts) -/

/-- Lower-case hexadecimal digits, as produced by Number.prototype.toString(16)
for values 0..15. -/
def hexChars : List Char := "0123456789abcdef".toList

/-- The hexadecimal character of a value 0..15 (v.toString(16) in the source). -/
def hexDigit (n : Nat) : Char := hexChars.getD n '0'

/-- The template string of generateUUID. -/
def uuidTemplate : String := "xxxxxxxx-xxxx-4xxx-yxxx-xxxxxxxxxxxx"

/-- One replacement step of the regex callback in generateUUID:
r = Math.random() * 16 | 0 (modelled as r % 16), and
v = c == x ? r : (r & 0x3 | 0x8). -/
def uuidChar (c : Char) (r : Nat) : Char :=
  if c = 'x' then hexDigit (r % 16)
  else hexDigit ((r % 16) &&& 3 ||| 8)

/-- The template replacement of generateUUID: each x or y character consumes
one random draw, every other character is kept. -/
def genUUIDChars : List Char → Nat → (Nat → Nat) → List Char
  | [], _, _ => []
  | c :: cs, k, rand =>
    if c = 'x' ∨ c = 'y'
    then uuidChar c (rand k) :: genUUIDChars cs (k + 1) rand
    else c :: genUUIDChars cs k rand

/-- generateUUID from common.utils.ts, with the stream of Math.random draws
made explicit (draw i is rand i, already scaled: the source uses
Math.random() * 16 | 0, modelled as rand i % 16). -/
def generateUUID (rand : Nat → Nat) : String :=
  String.mk (genUUIDChars uuidTemplate.toList 0 rand)

/-! ## ChatService session handling (chat.service.ts) -/

/-- JavaScript String.prototype.trim: drop whitespace from both ends. -/
def jsTrim (s : String) : String :=
  String.mk
    (((s.toList.dropWhile Char.isWhitespace).reverse.dropWhile
        Char.isWhitespace).reverse)

/-- JavaScript falsiness of a string-or-null value: null and the empty string
are falsy. -/
def isFalsyStr : Option String → Bool
  | none => true
  | some s => s = ""

inductive MessageRole
  | USER
  | ASSISTANT
  | SYSTEM
deriving DecidableEq, Repr

/-- The fields of ChatMessage that the session claims depend on. -/
structure ChatMessage where
  id : String
  role : MessageRole
  content : String
  sessionId : String
  userId : Option String
deriving DecidableEq, Repr

/-- The fields of ConversationContext that the session claims depend on. -/
structure ConversationContext where
  sessionId : String
  userId : Option String
deriving DecidableEq, Repr

/-- The ChatRequest sent to the API by ChatService.sendMessage. -/
structure ChatRequest where
  message : String
  sessionId : String
  userId : Option String
  includeContext : Bool
deriving DecidableEq, Repr

/-- The ChatService state touched by the session-handling claims. -/
structure ChatState where
  messages : List ChatMessage
  currentSessionId : Option String
  conversationContext : Option ConversationContext
  isTyping : Bool
  lastError : Option String
  pendingMessage : String
  isProcessing : Bool
deriving DecidableEq, Repr

/-- ChatService.startNewSession: generate a fresh UUID, set it as the current
session, create a new conversation context and clear the messages. -/
def startNewSession (rand : Nat → Nat) (userId : Option String) (st : ChatState) :
    ChatState :=
  let sessionId := generateUUID rand
  { st with
    currentSessionId := some sessionId
    conversationContext := some { sessionId := sessionId, userId := userId }
    messages := []
    lastError := none }

/-- ChatService.ensureSession: read the current session id; if it is falsy
(null or empty), call startNewSession and re-read it; return the id. -/
def ensureSession (rand : Nat → Nat) (st : ChatState) : String × ChatState :=
  let sessionId := st.currentSessionId
  if isFalsyStr sessionId then
    let st2 := startNewSession rand none st
    (st2.currentSessionId.getD "", st2)
  else
    (sessionId.getD "", st)

/-- ChatService.canSendMessage computed signal. -/
def canSendMessage (st : ChatState) : Bool :=
  (jsTrim st.pendingMessage).length > 0 && !st.isProcessing && !st.isTyping

/-- ChatService.createUserMessage. -/
def createUserMessage (rand : Nat → Nat) (content sessionId : String)
    (userId : Option String) : ChatMessage :=
  { id := generateUUID rand
    role := MessageRole.USER
    content := jsTrim content
    sessionId := sessionId
    userId := userId }

/-- ChatService.addMessage: append the message to the conversation. -/
def addMessage (m : ChatMessage) (st : ChatState) : ChatState :=
  { st with messages := st.messages ++ [m] }

/-- The synchronous prefix of ChatService.sendMessage, up to the API call:
guard on canSendMessage and content.trim(), ensure a session, build the user
message, add it, set the processing flags and build the ChatRequest.  The
result carries the created user message and the request (none when the guard
rejects the call).  rands i is the draw stream of the i-th generateUUID call
inside this invocation. -/
def sendMessage (rands : Nat → Nat → Nat) (content : String)
    (userId : Option String) (st : ChatState) :
    Option (ChatMessage × ChatRequest) × ChatState :=
  if !canSendMessage st || jsTrim content = "" then
    (none, st)
  else
    let p := ensureSession (rands 0) st
    let sessionId := p.1
    let userMessage := createUserMessage (rands 1) content sessionId userId
    let st2 := addMessage userMessage { p.2 with lastError := none }
    let st3 := { st2 with isProcessing := true, pendingMessage := "", isTyping := true }
    let request : ChatRequest :=
      { message := content, sessionId := sessionId, userId := userId,
        includeContext := true }
    (some (userMessage, request), st3)

/-! ## WebSocketService (chat.service.ts) and environment.websocket -/

/-- The websocket block of the environment configuration
(src/chatbet-frontend/src/environments/environment.ts). -/
structure WebsocketConfig where
  reconnectInterval : Nat
  maxReconnectAttempts : Nat
  heartbeatInterval : Nat
  connectionTimeout : Nat
deriving DecidableEq, Repr

/-- environment.websocket of the development environment. -/
def environmentWebsocket : WebsocketConfig :=
  { reconnectInterval := 5000
    maxReconnectAttempts := 10
    heartbeatInterval := 30000
    connectionTimeout := 10000 }

/-- WebSocketStatus enum of the WebSocketService. -/
inductive WebSocketStatus
  | DISCONNECTED
  | CONNECTING
  | CONNECTED
  | RECONNECTING
  | ERROR
deriving DecidableEq, Repr

/-- The readyState of a native WebSocket object. -/
inductive SocketReadyState
  | CONNECTING
  | OPEN
  | CLOSING
  | CLOSED
deriving DecidableEq, Repr

/-- The state of one WebSocketService instance.  socket = none models
this.socket === null; reconnectTimer = some d models a scheduled
attemptReconnection timeout with delay d; pendingConnect models the
anonymous setTimeout of forceReconnect; lastCloseCode records the code of
the last socket.close call; pingsSent counts heartbeat pings sent. -/
structure WSState where
  socket : Option SocketReadyState
  reconnectAttempts : Nat
  reconnectTimer : Option Nat
  heartbeatTimer : Bool
  pendingConnect : Bool
  status : WebSocketStatus
  lastError : Option String
  connectionTime : Bool
  lastCloseCode : Option Nat
  pingsSent : Nat
deriving DecidableEq, Repr

/-- The state of a freshly constructed WebSocketService. -/
def initWSState : WSState :=
  { socket := none
    reconnectAttempts := 0
    reconnectTimer := none
    heartbeatTimer := false
    pendingConnect := false
    status := WebSocketStatus.DISCONNECTED
    lastError := none
    connectionTime := false
    lastCloseCode := none
    pingsSent := 0 }

/-- WebSocketService.clearTimers: cancel the reconnect timeout and the
heartbeat interval. -/
def clearTimers (s : WSState) : WSState :=
  { s with reconnectTimer := none, heartbeatTimer := false }

/-- WebSocketService.connect: a no-op when the socket is already OPEN,
otherwise set status CONNECTING, clear lastError and create a new socket
(readyState CONNECTING). -/
def connect (s : WSState) : WSState :=
  if s.socket = some SocketReadyState.OPEN then s
  else
    { s with
      status := WebSocketStatus.CONNECTING
      lastError := none
      socket := some SocketReadyState.CONNECTING }

/-- WebSocketService.disconnect: clear the timers, close the socket with
code 1000 and drop it, then set status DISCONNECTED, clear connectionTime
and reset reconnectAttempts to 0. -/
def disconnect (s : WSState) : WSState :=
  let s1 := clearTimers s
  let s2 :=
    match s1.socket with
    | some _ => { s1 with lastCloseCode := some 1000, socket := none }
    | none => s1
  { s2 with
    status := WebSocketStatus.DISCONNECTED
    connectionTime := false
    reconnectAttempts := 0 }

/-- WebSocketService.attemptReconnection: when reconnectAttempts has reached
environment.websocket.maxReconnectAttempts, set status ERROR and stop;
otherwise set status RECONNECTING, increment the counter and schedule a
reconnect timeout of min(reconnectInterval * 2 ^ (attempts - 1), 30000). -/
def attemptReconnection (s : WSState) : WSState :=
  if s.reconnectAttempts ≥ environmentWebsocket.maxReconnectAttempts then
    { s with
      status := WebSocketStatus.ERROR
      lastError := some "Max reconnection attempts reached" }
  else
    let attempts := s.reconnectAttempts + 1
    let d := min (environmentWebsocket.reconnectInterval * 2 ^ (attempts - 1)) 30000
    { s with
      status := WebSocketStatus.RECONNECTING
      reconnectAttempts := attempts
      reconnectTimer := some d }

/-- WebSocketService.startHeartbeat: start the heartbeat interval timer. -/
def startHeartbeat (s : WSState) : WSState :=
  { s with heartbeatTimer := true }

/-- WebSocketService.handleConnectionError: set status ERROR, record the
error and attempt a reconnection. -/
def handleConnectionError (msg : String) (s : WSState) : WSState :=
  attemptReconnection
    { s with status := WebSocketStatus.ERROR, lastError := some msg }

/-- The onopen handler of setupSocketEventHandlers: set status CONNECTED,
record the connection time, reset reconnectAttempts to 0, clear lastError
and start the heartbeat. -/
def onopen (s : WSState) : WSState :=
  startHeartbeat
    { s with
      status := WebSocketStatus.CONNECTED
      connectionTime := true
      reconnectAttempts := 0
      lastError := none }

/-- The onclose handler of setupSocketEventHandlers: set status DISCONNECTED,
clear the connection time and the timers, then attempt a reconnection only
when the close code is not 1000 (a manual disconnect closes with 1000). -/
def onclose (code : Nat) (s : WSState) : WSState :=
  let s1 := clearTimers
    { s with
      status := WebSocketStatus.DISCONNECTED
      connectionTime := false }
  if code ≠ 1000 then attemptReconnection s1 else s1

/-- One tick of the heartbeat interval started by startHeartbeat: when the
socket is OPEN, send a ping frame (counted in pingsSent); otherwise do
nothing.  The handler neither inspects pongs nor closes the socket. -/
def heartbeatTick (s : WSState) : WSState :=
  if s.socket = some SocketReadyState.OPEN then
    { s with pingsSent := s.pingsSent + 1 }
  else s

/-- WebSocketService.forceReconnect: disconnect, reset reconnectAttempts to 0
and schedule a connect after one second (the pendingConnect timer). -/
def forceReconnect (s : WSState) : WSState :=
  let s1 := disconnect s
  { s1 with reconnectAttempts := 0, pendingConnect := true }

/-- A successfully parsed inbound frame, after JSON.parse, keyed on the type
field exactly as the switch of handleIncomingMessage is. -/
inductive WSIncoming
  | bot_response (message_id : Option String) (content : String) (session_id : String)
  | streaming_response (message_id : Option String) (content : String) (session_id : String)
  | typingFrame (user_id : Option String) (is_typing : Bool) (session_id : String)
  | pong
  | connection_ack
  | errorFrame (content : Option String)
  | legacyMessage (hasData : Bool)
  | connectionFrame
  | disconnectFrame
  | unknown (t : String)
deriving DecidableEq, Repr

/-- WebSocketService.handleIncomingMessage: data is the JSON.parse result
(none when parsing threw).  A parse failure is logged with console.warn (the
returned Bool) and leaves the state untouched.  Of the parsed frames only an
error frame touches the service state (lastError, with the JS-falsy default
of Unknown error); every other frame only feeds the subjects. -/
def handleIncomingMessage (data : Option WSIncoming) (s : WSState) :
    WSState × Bool :=
  match data with
  | none => (s, true)
  | some m =>
    match m with
    | WSIncoming.errorFrame c =>
      let text :=
        match c with
        | some str => if str = "" then "Unknown error" else str
        | none => "Unknown error"
      ({ s with lastError := some text }, false)
    | _ => (s, false)

/-- The events a WebSocketService instance can experience: the public calls
(connect, disconnect, forceReconnect), the socket callbacks (open, close,
error, message), and the timers (reconnect timeout, forceReconnect timeout,
heartbeat interval). -/
inductive WSEvent
  | evConnect
  | evDisconnect
  | evForceReconnect
  | evPendingFire
  | evOpen
  | evClose (code : Nat)
  | evError
  | evTimerFire
  | evHeartbeat
  | evMessage (data : Option WSIncoming)
deriving DecidableEq, Repr

/-- Events that occur without a caller-initiated action: everything except
connect, disconnect, forceReconnect and the forceReconnect timeout. -/
def WSEvent.isAuto : WSEvent → Bool
  | WSEvent.evConnect => false
  | WSEvent.evDisconnect => false
  | WSEvent.evForceReconnect => false
  | WSEvent.evPendingFire => false
  | _ => true

/-- One step of the service: an event that is not enabled in the current
state (a socket callback without a matching socket, a timer that is not
armed) leaves the state unchanged.  A socket error can only follow a
CONNECTING or OPEN socket and precludes a later open (the transport moves
the socket to CLOSING); a close event moves the socket to CLOSED before the
handler runs, an open event moves it to OPEN. -/
def step (s : WSState) : WSEvent → WSState
  | WSEvent.evConnect => connect s
  | WSEvent.evDisconnect => disconnect s
  | WSEvent.evForceReconnect => forceReconnect s
  | WSEvent.evPendingFire =>
    if s.pendingConnect then connect { s with pendingConnect := false } else s
  | WSEvent.evOpen =>
    if s.socket = some SocketReadyState.CONNECTING then
      onopen { s with socket := some SocketReadyState.OPEN }
    else s
  | WSEvent.evClose code =>
    match s.socket with
    | some st =>
      if st ≠ SocketReadyState.CLOSED then
        onclose code { s with socket := some SocketReadyState.CLOSED }
      else s
    | none => s
  | WSEvent.evError =>
    match s.socket with
    | some st =>
      if st = SocketReadyState.CONNECTING ∨ st = SocketReadyState.OPEN then
        handleConnectionError "WebSocket connection error"
          { s with socket := some SocketReadyState.CLOSING }
      else s
    | none => s
  | WSEvent.evTimerFire =>
    match s.reconnectTimer with
    | some _ => connect { s with reconnectTimer := none }
    | none => s
  | WSEvent.evHeartbeat =>
    if s.heartbeatTimer then heartbeatTick s else s
  | WSEvent.evMessage data => (handleIncomingMessage data s).1

/-- Run a list of events from a state. -/
def run (s : WSState) (es : List WSEvent) : WSState :=
  es.foldl step s

/-! ## Deduplication Store (backend, modelled from the spec) -/

/-- Modelled from the spec: the backend Deduplication Store and its
checkAndRecord operation (spec section 4.1) are implemented in the Python
backend, whose source is not part of this repository snapshot (only its
documentation is).  Outcome of a checkAndRecord call. -/
inductive Outcome
  | ACCEPT
  | DUPLICATE_ID
  | DUPLICATE_CONTENT
deriving DecidableEq, Repr

/-- Modelled from the spec: retention of a message-id record, a fixed long
window of 10 minutes, in milliseconds. -/
def idRetentionMs : Nat := 600000

/-- Modelled from the spec: retention of a content-fingerprint record, a
fixed short window of 2 seconds, in milliseconds. -/
def contentWindowMs : Nat := 2000

/-- Modelled from the spec: the store holds message-id records keyed by
(sessionId, messageId) and content-fingerprint records keyed by the
fingerprint, each with its firstSeenAt timestamp. -/
structure DedupStore where
  idRecords : List ((String × String) × Nat)
  contentRecords : List (String × Nat)
deriving DecidableEq, Repr

/-- The empty Deduplication Store. -/
def emptyDedupStore : DedupStore := { idRecords := [], contentRecords := [] }

/-- Modelled from the spec: whether (sessionId, messageId) is already
recorded. -/
def hasId (st : DedupStore) (sid mid : String) : Bool :=
  st.idRecords.any (fun r => r.1 = (sid, mid))

/-- Modelled from the spec: whether the content fingerprint is recorded
within the short window at the given time. -/
def hasFreshContent (st : DedupStore) (fp : String) (now : Nat) : Bool :=
  st.contentRecords.any (fun r => r.1 = fp && now - r.2 ≤ contentWindowMs)

/-- Modelled from the spec: checkAndRecord(sessionId, messageId,
contentFingerprint) at time now, in order: an already-recorded id pair
returns DUPLICATE_ID; else a fingerprint within the short window returns
DUPLICATE_CONTENT; else both entries are recorded with the current
timestamp and the call returns ACCEPT. -/
def checkAndRecord (sid mid fp : String) (now : Nat) (st : DedupStore) :
    Outcome × DedupStore :=
  if hasId st sid mid then (Outcome.DUPLICATE_ID, st)
  else if hasFreshContent st fp now then (Outcome.DUPLICATE_CONTENT, st)
  else
    (Outcome.ACCEPT,
      { idRecords := ((sid, mid), now) :: st.idRecords
        contentRecords := (fp, now) :: st.contentRecords })

/-- Modelled from the spec: the periodic eviction sweep removes entries
older than each record kind retention window. -/
def sweep (now : Nat) (st : DedupStore) : DedupStore :=
  { idRecords := st.idRecords.filter (fun r => now - r.2 ≤ idRetentionMs)
    contentRecords :=
      st.contentRecords.filter (fun r => now - r.2 ≤ contentWindowMs) }

/-- An operation on the Deduplication Store: a checkAndRecord submission or
an eviction sweep. -/
inductive DedupOp
  | submit (sid mid fp : String) (now : Nat)
  | sweepRun (now : Nat)
deriving DecidableEq, Repr

/-- One store operation, returning the new store and the outcome when the
operation was a submission. -/
def dedupStep (st : DedupStore) : DedupOp → DedupStore × Option Outcome
  | DedupOp.submit sid mid fp now =>
    let r := checkAndRecord sid mid fp now st
    (r.2, some r.1)
  | DedupOp.sweepRun now => (sweep now st, none)

/-- Run a list of operations, pairing each with its outcome. -/
def dedupTrace (st : DedupStore) : List DedupOp → List (DedupOp × Option Outcome)
  | [] => []
  | op :: rest =>
    let r := dedupStep st op
    (op, r.2) :: dedupTrace r.1 rest

/-! ## Helper lemmas: generateUUID -/

theorem generateUUID_toList (rand : Nat → Nat) :
    (generateUUID rand).toList =
    [uuidChar 'x' (rand 0), uuidChar 'x' (rand 1), uuidChar 'x' (rand 2),
     uuidChar 'x' (rand 3), uuidChar 'x' (rand 4), uuidChar 'x' (rand 5),
     uuidChar 'x' (rand 6), uuidChar 'x' (rand 7), '-',
     uuidChar 'x' (rand 8), uuidChar 'x' (rand 9), uuidChar 'x' (rand 10),
     uuidChar 'x' (rand 11), '-', '4',
     uuidChar 'x' (rand 12), uuidChar 'x' (rand 13), uuidChar 'x' (rand 14), '-',
     uuidChar 'y' (rand 15),
     uuidChar 'x' (rand 16), uuidChar 'x' (rand 17), uuidChar 'x' (rand 18), '-',
     uuidChar 'x' (rand 19), uuidChar 'x' (rand 20), uuidChar 'x' (rand 21),
     uuidChar 'x' (rand 22), uuidChar 'x' (rand 23), uuidChar 'x' (rand 24),
     uuidChar 'x' (rand 25), uuidChar 'x' (rand 26), uuidChar 'x' (rand 27),
     uuidChar 'x' (rand 28), uuidChar 'x' (rand 29), uuidChar 'x' (rand 30)] := rfl

theorem uuidChar_mod (c : Char) (r : Nat) : uuidChar c (r % 16) = uuidChar c r := by
  unfold uuidChar
  rw [Nat.mod_mod_of_dvd r (dvd_refl 16)]

theorem uuidChar_fin_x : ∀ v : Fin 16, uuidChar 'x' v.val ∈ hexChars := by decide

theorem uuidChar_fin_y : ∀ v : Fin 16,
    uuidChar 'y' v.val ∈ (['8', '9', 'a', 'b'] : List Char) := by decide

theorem uuidChar_x_mem (r : Nat) : uuidChar 'x' r ∈ hexChars := by
  rw [← uuidChar_mod]
  exact uuidChar_fin_x ⟨r % 16, Nat.mod_lt r (by norm_num)⟩

theorem uuidChar_y_mem (r : Nat) :
    uuidChar 'y' r ∈ (['8', '9', 'a', 'b'] : List Char) := by
  rw [← uuidChar_mod]
  exact uuidChar_fin_y ⟨r % 16, Nat.mod_lt r (by norm_num)⟩

theorem uuidChar_y_hex (r : Nat) : uuidChar 'y' r ∈ hexChars := by
  have h := uuidChar_y_mem r
  simp only [List.mem_cons, List.not_mem_nil, or_false] at h
  rcases h with h | h | h | h <;> rw [h] <;> decide

theorem generateUUID_length (rand : Nat → Nat) : (generateUUID rand).length = 36 := by
  show (generateUUID rand).toList.length = 36
  rw [generateUUID_toList]
  rfl

theorem generateUUID_ne_empty (rand : Nat → Nat) : generateUUID rand ≠ "" := by
  intro h
  have h2 := congrArg String.length h
  rw [generateUUID_length] at h2
  simp at h2

/-! ## C10 -/

/-- C10: for every invocation, generateUUID returns a 36-character string in
version-4 UUID shape: hexadecimal digits with a dash at positions 8, 13, 18
and 23, the character 4 at position 14, and one of 8, 9, a, b at position 19;
hence every client-generated message and session identifier is non-empty and
well-formed. -/
theorem uuid_v4_shape (rand : Nat → Nat) :
    (generateUUID rand).length = 36 ∧
    generateUUID rand ≠ "" ∧
    (generateUUID rand).toList.getD 8 'z' = '-' ∧
    (generateUUID rand).toList.getD 13 'z' = '-' ∧
    (generateUUID rand).toList.getD 18 'z' = '-' ∧
    (generateUUID rand).toList.getD 23 'z' = '-' ∧
    (generateUUID rand).toList.getD 14 'z' = '4' ∧
    (generateUUID rand).toList.getD 19 'z' ∈ (['8', '9', 'a', 'b'] : List Char) ∧
    (∀ c ∈ (generateUUID rand).toList, c = '-' ∨ c ∈ hexChars) := by
  have e := generateUUID_toList rand
  refine ⟨generateUUID_length rand, generateUUID_ne_empty rand,
    ?_, ?_, ?_, ?_, ?_, ?_, ?_⟩
  · rw [e]; rfl
  · rw [e]; rfl
  · rw [e]; rfl
  · rw [e]; rfl
  · rw [e]; rfl
  · rw [e]; exact uuidChar_y_mem _
  · rw [e]
    intro c hc
    fin_cases hc <;>
      first
        | exact Or.inl rfl
        | exact Or.inr (by decide)
        | exact Or.inr (uuidChar_x_mem _)
        | exact Or.inr (uuidChar_y_hex _)

/-! ## C9 -/

theorem ensureSession_spec (rand : Nat → Nat) (st : ChatState) :
    (ensureSession rand st).1 ≠ "" ∧
    (isFalsyStr st.currentSessionId = true →
      (ensureSession rand st).1 = generateUUID rand) ∧
    (ensureSession rand st).2.currentSessionId = some (ensureSession rand st).1 := by
  unfold ensureSession
  by_cases h : isFalsyStr st.currentSessionId
  · simp [h, startNewSession, generateUUID_ne_empty]
  · cases hcs : st.currentSessionId with
    | none => rw [hcs] at h; simp [isFalsyStr] at h
    | some s =>
      rw [hcs] at h
      simp only [isFalsyStr, decide_eq_true_eq] at h
      simp [hcs, isFalsyStr, h]

/-- C9: for every message-sending operation that proceeds, a non-empty
session identifier exists before the message is handed to any further
operation: the created user message and the API request carry the same
non-empty identifier, it is stored as the current session, and when no
session identifier was set (null or empty, both JS-falsy) a fresh UUID was
generated first. -/
theorem sendMessage_session_nonempty (rands : Nat → Nat → Nat) (content : String)
    (userId : Option String) (st : ChatState) (msg : ChatMessage)
    (req : ChatRequest)
    (h : (sendMessage rands content userId st).1 = some (msg, req)) :
    msg.sessionId ≠ "" ∧ req.sessionId = msg.sessionId ∧
    (sendMessage rands content userId st).2.currentSessionId = some msg.sessionId ∧
    (isFalsyStr st.currentSessionId = true →
      msg.sessionId = generateUUID (rands 0)) := by
  have hs := ensureSession_spec (rands 0) st
  cases hgc : (!canSendMessage st || decide (jsTrim content = "")) with
  | true => simp [sendMessage, hgc] at h
  | false =>
    simp only [sendMessage, hgc, Bool.false_eq_true, if_false] at h ⊢
    simp only [Option.some.injEq, Prod.mk.injEq] at h
    obtain ⟨h1, h2⟩ := h
    subst h1
    subst h2
    refine ⟨hs.1, rfl, ?_, fun hf => ?_⟩
    · simp [createUserMessage, addMessage]
      exact hs.2.2
    · simp [createUserMessage]
      exact hs.2.1 hf

def wChatState : ChatState :=
  { messages := []
    currentSessionId := none
    conversationContext := none
    isTyping := false
    lastError := none
    pendingMessage := "hi"
    isProcessing := false }

def wUUID : String := "00000000-0000-4000-8000-000000000000"

def wMsg : ChatMessage :=
  { id := wUUID, role := MessageRole.USER, content := "hi",
    sessionId := wUUID, userId := none }

def wReq : ChatRequest :=
  { message := "hi", sessionId := wUUID, userId := none, includeContext := true }

theorem sendMessage_session_nonempty_witness :
    ((sendMessage (fun _ _ => 0) "hi" none wChatState).1 = some (wMsg, wReq)) ∧
    (wMsg.sessionId ≠ "" ∧ wReq.sessionId = wMsg.sessionId ∧
      (sendMessage (fun _ _ => 0) "hi" none wChatState).2.currentSessionId
        = some wMsg.sessionId ∧
      (isFalsyStr wChatState.currentSessionId = true →
        wMsg.sessionId = generateUUID ((fun _ _ => (0 : Nat)) 0))) :=
  ⟨by decide, sendMessage_session_nonempty _ _ _ _ _ _ (by decide)⟩

/-! ## Helper lemmas: WebSocketService -/

theorem handleIncomingMessage_conn (data : Option WSIncoming) (s : WSState) :
    ((handleIncomingMessage data s).1).socket = s.socket ∧
    ((handleIncomingMessage data s).1).status = s.status ∧
    ((handleIncomingMessage data s).1).reconnectTimer = s.reconnectTimer ∧
    ((handleIncomingMessage data s).1).heartbeatTimer = s.heartbeatTimer ∧
    ((handleIncomingMessage data s).1).reconnectAttempts = s.reconnectAttempts ∧
    ((handleIncomingMessage data s).1).pendingConnect = s.pendingConnect := by
  cases data with
  | none => exact ⟨rfl, rfl, rfl, rfl, rfl, rfl⟩
  | some m => cases m <;> exact ⟨rfl, rfl, rfl, rfl, rfl, rfl⟩

/-! ## C2 -/

/-- C2: on every non-manual close (code other than 1000) while fewer than
maxReconnectAttempts consecutive failures have been counted, the scheduled
reconnection delay is min(base * 2 ^ attempt, 30000) where attempt is the
number of prior consecutive failed attempts and base is the configured
reconnectInterval, which is 5000 ms. -/
theorem reconnect_backoff_delay (s : WSState) (code : Nat) (hc : code ≠ 1000)
    (h : s.reconnectAttempts < environmentWebsocket.maxReconnectAttempts) :
    (onclose code s).reconnectTimer =
      some (min (environmentWebsocket.reconnectInterval * 2 ^ s.reconnectAttempts)
        30000) ∧
    environmentWebsocket.reconnectInterval = 5000 := by
  have hnot : ¬ s.reconnectAttempts ≥ environmentWebsocket.maxReconnectAttempts :=
    Nat.not_le_of_lt h
  refine ⟨?_, rfl⟩
  simp [onclose, clearTimers, attemptReconnection, hc, hnot]

theorem reconnect_backoff_delay_witness :
    ((1006 : Nat) ≠ 1000) ∧
    (({ initWSState with reconnectAttempts := 3 } : WSState).reconnectAttempts
      < environmentWebsocket.maxReconnectAttempts) ∧
    ((onclose 1006 { initWSState with reconnectAttempts := 3 }).reconnectTimer =
      some (min (environmentWebsocket.reconnectInterval *
        2 ^ ({ initWSState with reconnectAttempts := 3 } : WSState).reconnectAttempts)
        30000) ∧
    environmentWebsocket.reconnectInterval = 5000) :=
  ⟨by decide, by decide,
    reconnect_backoff_delay { initWSState with reconnectAttempts := 3 } 1006
      (by decide) (by decide)⟩

/-! ## C3 -/

/-- C3: the onopen handler resets the reconnection attempt counter to 0 on
every successful OPEN transition, so after any successful reconnect the
next backoff starts from the base delay: a non-manual close right after an
open schedules exactly the base reconnect interval. -/
theorem open_resets_attempts (s : WSState) (code : Nat) (hc : code ≠ 1000) :
    (onopen s).reconnectAttempts = 0 ∧
    (onclose code (onopen s)).reconnectTimer =
      some environmentWebsocket.reconnectInterval := by
  refine ⟨rfl, ?_⟩
  simp [onclose, onopen, startHeartbeat, clearTimers, attemptReconnection, hc,
    environmentWebsocket]

theorem open_resets_attempts_witness :
    ((1006 : Nat) ≠ 1000) ∧
    ((onopen initWSState).reconnectAttempts = 0 ∧
    (onclose 1006 (onopen initWSState)).reconnectTimer =
      some environmentWebsocket.reconnectInterval) :=
  ⟨by decide, open_resets_attempts initWSState 1006 (by decide)⟩

/-! ## C8 -/

/-- C8: an inbound frame whose payload fails to parse is reported (the
console warning, the Bool of the result) and leaves the whole service state
unchanged: the connection is not terminated and the connection state does
not change, so a malformed frame is not fatal. -/
theorem malformed_frame_not_fatal (s : WSState) :
    handleIncomingMessage none s = (s, true) ∧
    step s (WSEvent.evMessage none) = s :=
  ⟨rfl, rfl⟩

/-! ## C5 -/

/-- A state with no socket, no timers and status DISCONNECTED, as left by a
manual disconnect. -/
def IdleDisc (s : WSState) : Prop :=
  s.socket = none ∧ s.reconnectTimer = none ∧ s.heartbeatTimer = false ∧
  s.status = WebSocketStatus.DISCONNECTED

theorem idleDisc_step (s : WSState) (e : WSEvent) (ha : e.isAuto = true)
    (h : IdleDisc s) : IdleDisc (step s e) := by
  obtain ⟨h1, h2, h3, h4⟩ := h
  cases e with
  | evConnect => simp [WSEvent.isAuto] at ha
  | evDisconnect => simp [WSEvent.isAuto] at ha
  | evForceReconnect => simp [WSEvent.isAuto] at ha
  | evPendingFire => simp [WSEvent.isAuto] at ha
  | evOpen =>
    simp only [step, h1]
    exact ⟨h1, h2, h3, h4⟩
  | evClose code =>
    simp only [step, h1]
    exact ⟨h1, h2, h3, h4⟩
  | evError =>
    simp only [step, h1]
    exact ⟨h1, h2, h3, h4⟩
  | evTimerFire =>
    simp only [step, h2]
    exact ⟨h1, h2, h3, h4⟩
  | evHeartbeat =>
    simp only [step, h3]
    exact ⟨h1, h2, h3, h4⟩
  | evMessage data =>
    have hc := handleIncomingMessage_conn data s
    exact ⟨hc.1.trans h1, hc.2.2.1.trans h2, hc.2.2.2.1.trans h3, hc.2.1.trans h4⟩

theorem idleDisc_run (s : WSState) (es : List WSEvent)
    (ha : ∀ e ∈ es, e.isAuto = true) (h : IdleDisc s) : IdleDisc (run s es) := by
  induction es generalizing s with
  | nil => exact h
  | cons e rest ih =>
    exact ih (step s e) (fun x hx => ha x (List.mem_cons_of_mem e hx))
      (idleDisc_step s e (ha e (List.mem_cons_self e rest)) h)

theorem disconnect_idle (s : WSState) : IdleDisc (disconnect s) := by
  cases hs : s.socket <;>
    simp [disconnect, clearTimers, hs, IdleDisc]

/-- C5: a manual disconnect closes the socket with code 1000 and leaves
status DISCONNECTED (not ERROR) with no reconnect timer; the close handler
schedules a reconnection only for close codes other than 1000 (a close with
code 1000 leaves no timer); and after a disconnect no sequence of automatic
events ever schedules a reconnection or leaves DISCONNECTED, until a new
connect is explicitly requested. -/
theorem disconnect_suppresses_reconnect (s t : WSState)
    (st0 : SocketReadyState) (hs : s.socket = some st0) :
    (disconnect s).lastCloseCode = some 1000 ∧
    (disconnect s).status = WebSocketStatus.DISCONNECTED ∧
    (disconnect s).reconnectTimer = none ∧
    (onclose 1000 t).reconnectTimer = none ∧
    (∀ es : List WSEvent, (∀ e ∈ es, e.isAuto = true) →
      (run (disconnect s) es).reconnectTimer = none ∧
      (run (disconnect s) es).status = WebSocketStatus.DISCONNECTED) := by
  have hidle := disconnect_idle s
  refine ⟨?_, hidle.2.2.2, hidle.2.1, ?_, fun es ha => ?_⟩
  · simp [disconnect, clearTimers, hs]
  · simp [onclose, clearTimers]
  · have h2 := idleDisc_run (disconnect s) es ha hidle
    exact ⟨h2.2.1, h2.2.2.2⟩

/-- A live connected state used to instantiate theorems about disconnects. -/
def connWS : WSState :=
  { initWSState with
    socket := some SocketReadyState.OPEN
    status := WebSocketStatus.CONNECTED
    heartbeatTimer := true
    connectionTime := true }

theorem disconnect_suppresses_reconnect_witness :
    (connWS.socket = some SocketReadyState.OPEN) ∧
    ((disconnect connWS).lastCloseCode = some 1000 ∧
    (disconnect connWS).status = WebSocketStatus.DISCONNECTED ∧
    (disconnect connWS).reconnectTimer = none ∧
    (onclose 1000 initWSState).reconnectTimer = none ∧
    (∀ es : List WSEvent, (∀ e ∈ es, e.isAuto = true) →
      (run (disconnect connWS) es).reconnectTimer = none ∧
      (run (disconnect connWS) es).status = WebSocketStatus.DISCONNECTED)) :=
  ⟨rfl, disconnect_suppresses_reconnect connWS initWSState SocketReadyState.OPEN rfl⟩

/-! ## C4 -/

/-- A state in which the reconnection logic has given up: the attempt
counter is at its maximum, no timer is pending and no connection attempt is
in flight. -/
def Halted (s : WSState) : Prop :=
  s.reconnectAttempts ≥ environmentWebsocket.maxReconnectAttempts ∧
  s.reconnectTimer = none ∧
  s.pendingConnect = false ∧
  s.socket ≠ some SocketReadyState.CONNECTING ∧
  s.status ≠ WebSocketStatus.CONNECTING

theorem halted_step (s : WSState) (e : WSEvent) (ha : e.isAuto = true)
    (h : Halted s) : Halted (step s e) := by
  obtain ⟨h1, h2, h3, h4, h5⟩ := h
  have hmax : s.reconnectAttempts ≥ environmentWebsocket.maxReconnectAttempts := h1
  cases e with
  | evConnect => simp [WSEvent.isAuto] at ha
  | evDisconnect => simp [WSEvent.isAuto] at ha
  | evForceReconnect => simp [WSEvent.isAuto] at ha
  | evPendingFire => simp [WSEvent.isAuto] at ha
  | evOpen =>
    simp only [step]
    rw [if_neg h4]
    exact ⟨h1, h2, h3, h4, h5⟩
  | evClose code =>
    cases hs : s.socket with
    | none =>
      simp only [step, hs]
      exact ⟨h1, h2, h3, h4, h5⟩
    | some st =>
      simp only [step, hs]
      by_cases hcl : st = SocketReadyState.CLOSED
      · rw [if_neg (by simp [hcl])]
        exact ⟨h1, h2, h3, h4, h5⟩
      · rw [if_pos (by simpa using hcl)]
        unfold onclose clearTimers attemptReconnection
        by_cases hc : code ≠ 1000
        · rw [if_pos hc, if_pos hmax]
          exact ⟨h1, rfl, h3, by simp, by simp⟩
        · rw [if_neg hc]
          exact ⟨h1, rfl, h3, by simp, by simp⟩
  | evError =>
    cases hs : s.socket with
    | none =>
      simp only [step, hs]
      exact ⟨h1, h2, h3, h4, h5⟩
    | some st =>
      simp only [step, hs]
      by_cases hco : st = SocketReadyState.CONNECTING ∨ st = SocketReadyState.OPEN
      · rw [if_pos hco]
        unfold handleConnectionError attemptReconnection
        rw [if_pos hmax]
        exact ⟨h1, h2, h3, by simp, by simp⟩
      · rw [if_neg hco]
        exact ⟨h1, h2, h3, h4, h5⟩
  | evTimerFire =>
    simp only [step, h2]
    exact ⟨h1, h2, h3, h4, h5⟩
  | evHeartbeat =>
    simp only [step]
    by_cases hh : s.heartbeatTimer
    · rw [if_pos hh]
      unfold heartbeatTick
      by_cases ho : s.socket = some SocketReadyState.OPEN
      · rw [if_pos ho]
        exact ⟨h1, h2, h3, h4, h5⟩
      · rw [if_neg ho]
        exact ⟨h1, h2, h3, h4, h5⟩
    · rw [if_neg hh]
      exact ⟨h1, h2, h3, h4, h5⟩
  | evMessage data =>
    have hc := handleIncomingMessage_conn data s
    exact ⟨hc.2.2.2.2.1.symm ▸ h1, hc.2.2.1.trans h2, hc.2.2.2.2.2.trans h3,
      fun hx => h4 (hc.1.symm.trans hx), fun hx => h5 (hc.2.1.symm.trans hx)⟩

theorem halted_run (s : WSState) (es : List WSEvent)
    (ha : ∀ e ∈ es, e.isAuto = true) (h : Halted s) : Halted (run s es) := by
  induction es generalizing s with
  | nil => exact h
  | cons e rest ih =>
    exact ih (step s e) (fun x hx => ha x (List.mem_cons_of_mem e hx))
      (halted_step s e (ha e (List.mem_cons_self e rest)) h)

/-- C4: once reconnectAttempts has reached maxReconnectAttempts,
attemptReconnection sets status ERROR and schedules nothing, and from any
such halted state no sequence of automatic events ever schedules a
reconnect timer or starts CONNECTING again; only the explicit
forceReconnect resets the counter to 0 and starts a new connection
attempt. -/
theorem max_attempts_error_halts (s : WSState)
    (hmax : s.reconnectAttempts ≥ environmentWebsocket.maxReconnectAttempts)
    (ht : s.reconnectTimer = none) (hp : s.pendingConnect = false)
    (hsock : s.socket ≠ some SocketReadyState.CONNECTING)
    (hst : s.status ≠ WebSocketStatus.CONNECTING) :
    (attemptReconnection s).status = WebSocketStatus.ERROR ∧
    (attemptReconnection s).reconnectTimer = s.reconnectTimer ∧
    (∀ es : List WSEvent, (∀ e ∈ es, e.isAuto = true) →
      (run s es).reconnectTimer = none ∧
      (run s es).status ≠ WebSocketStatus.CONNECTING) ∧
    (forceReconnect s).reconnectAttempts = 0 ∧
    (step (forceReconnect s) WSEvent.evPendingFire).status =
      WebSocketStatus.CONNECTING := by
  refine ⟨?_, ?_, fun es ha => ?_, ?_, ?_⟩
  · unfold attemptReconnection
    rw [if_pos hmax]
  · unfold attemptReconnection
    rw [if_pos hmax]
  · have h2 := halted_run s es ha ⟨hmax, ht, hp, hsock, hst⟩
    exact ⟨h2.2.1, h2.2.2.2.2⟩
  · cases hs : s.socket <;> simp [forceReconnect, disconnect, clearTimers, hs]
  · cases hs : s.socket <;>
      simp [forceReconnect, disconnect, clearTimers, step, connect, hs]

/-- A state that has exhausted its reconnection attempts. -/
def haltedWS : WSState :=
  { initWSState with
    reconnectAttempts := 10
    status := WebSocketStatus.ERROR
    socket := some SocketReadyState.CLOSED
    lastError := some "Max reconnection attempts reached" }

theorem max_attempts_error_halts_witness :
    (haltedWS.reconnectAttempts ≥ environmentWebsocket.maxReconnectAttempts) ∧
    ((attemptReconnection haltedWS).status = WebSocketStatus.ERROR ∧
    (attemptReconnection haltedWS).reconnectTimer = haltedWS.reconnectTimer ∧
    (∀ es : List WSEvent, (∀ e ∈ es, e.isAuto = true) →
      (run haltedWS es).reconnectTimer = none ∧
      (run haltedWS es).status ≠ WebSocketStatus.CONNECTING) ∧
    (forceReconnect haltedWS).reconnectAttempts = 0 ∧
    (step (forceReconnect haltedWS) WSEvent.evPendingFire).status =
      WebSocketStatus.CONNECTING) :=
  ⟨by decide,
    max_attempts_error_halts haltedWS (by decide) (by decide) (by decide)
      (by decide) (by decide)⟩

/-! ## C6 -/

theorem handleIncomingMessage_close (data : Option WSIncoming) (s : WSState) :
    ((handleIncomingMessage data s).1).lastCloseCode = s.lastCloseCode := by
  cases data with
  | none => rfl
  | some m => cases m <;> rfl

/-- The state of the service right after a successful connect and open. -/
def openedWS : WSState := run initWSState [WSEvent.evConnect, WSEvent.evOpen]

/-- C6 counterexample: from a freshly opened connection, one hundred
heartbeat intervals (far beyond any timeout) pass with a ping sent on each
and no pong ever received, yet the connection is never treated as dead: the
socket is still OPEN, the status still CONNECTED, and no close was ever
issued.  The code has no pong timeout at all: the pong case of
handleIncomingMessage only logs. -/
theorem heartbeat_no_pong_close_counterexample :
    openedWS.socket = some SocketReadyState.OPEN ∧
    openedWS.heartbeatTimer = true ∧
    (run openedWS (List.replicate 100 WSEvent.evHeartbeat)).pingsSent = 100 ∧
    (run openedWS (List.replicate 100 WSEvent.evHeartbeat)).socket
      = some SocketReadyState.OPEN ∧
    (run openedWS (List.replicate 100 WSEvent.evHeartbeat)).status
      = WebSocketStatus.CONNECTED ∧
    (run openedWS (List.replicate 100 WSEvent.evHeartbeat)).lastCloseCode
      = none := by
  set_option maxRecDepth 4000 in decide

theorem hb_msg_run_preserves (s : WSState) (es : List WSEvent)
    (ha : ∀ e ∈ es, e = WSEvent.evHeartbeat ∨ ∃ d, e = WSEvent.evMessage d) :
    (run s es).socket = s.socket ∧ (run s es).status = s.status ∧
    (run s es).lastCloseCode = s.lastCloseCode := by
  induction es generalizing s with
  | nil => exact ⟨rfl, rfl, rfl⟩
  | cons e rest ih =>
    have he := ha e (List.mem_cons_self e rest)
    have hstep : (step s e).socket = s.socket ∧ (step s e).status = s.status ∧
        (step s e).lastCloseCode = s.lastCloseCode := by
      rcases he with rfl | ⟨d, rfl⟩
      · simp only [step]
        by_cases hh : s.heartbeatTimer
        · rw [if_pos hh]
          unfold heartbeatTick
          by_cases ho : s.socket = some SocketReadyState.OPEN
          · rw [if_pos ho]; exact ⟨rfl, rfl, rfl⟩
          · rw [if_neg ho]; exact ⟨rfl, rfl, rfl⟩
        · rw [if_neg hh]; exact ⟨rfl, rfl, rfl⟩
      · have hc := handleIncomingMessage_conn d s
        have hcc := handleIncomingMessage_close d s
        exact ⟨hc.1, hc.2.1, hcc⟩
    have hrest := ih (step s e) (fun x hx => ha x (List.mem_cons_of_mem e hx))
    exact ⟨hrest.1.trans hstep.1, hrest.2.1.trans hstep.2.1,
      hrest.2.2.trans hstep.2.2⟩

/-- C6 amended: while connected with the heartbeat running, each heartbeat
interval tick sends exactly one ping and changes nothing else; a received
pong frame leaves the state completely unchanged (it is only logged); and
no sequence of heartbeat ticks and inbound frames, with or without pongs,
ever closes the connection or changes the status: the code has no pong
timeout and never force-closes a connection for a missing pong. -/
theorem heartbeat_ping_only (s : WSState)
    (hs : s.socket = some SocketReadyState.OPEN)
    (hh : s.heartbeatTimer = true) :
    (step s WSEvent.evHeartbeat).pingsSent = s.pingsSent + 1 ∧
    (step s WSEvent.evHeartbeat).socket = s.socket ∧
    (step s WSEvent.evHeartbeat).status = s.status ∧
    (handleIncomingMessage (some WSIncoming.pong) s).1 = s ∧
    (∀ es : List WSEvent,
      (∀ e ∈ es, e = WSEvent.evHeartbeat ∨ ∃ d, e = WSEvent.evMessage d) →
      (run s es).socket = s.socket ∧ (run s es).status = s.status ∧
      (run s es).lastCloseCode = s.lastCloseCode) := by
  refine ⟨?_, ?_, ?_, rfl, fun es ha => hb_msg_run_preserves s es ha⟩ <;>
    simp only [step, hh, if_pos, heartbeatTick, hs, if_true]

theorem heartbeat_ping_only_witness :
    (openedWS.socket = some SocketReadyState.OPEN) ∧
    (openedWS.heartbeatTimer = true) ∧
    ((step openedWS WSEvent.evHeartbeat).pingsSent = openedWS.pingsSent + 1 ∧
    (step openedWS WSEvent.evHeartbeat).socket = openedWS.socket ∧
    (step openedWS WSEvent.evHeartbeat).status = openedWS.status ∧
    (handleIncomingMessage (some WSIncoming.pong) openedWS).1 = openedWS ∧
    (∀ es : List WSEvent,
      (∀ e ∈ es, e = WSEvent.evHeartbeat ∨ ∃ d, e = WSEvent.evMessage d) →
      (run openedWS es).socket = openedWS.socket ∧
      (run openedWS es).status = openedWS.status ∧
      (run openedWS es).lastCloseCode = openedWS.lastCloseCode)) :=
  ⟨rfl, rfl, heartbeat_ping_only openedWS rfl rfl⟩

/-! ## C7 -/

theorem attemptReconnection_ge (s : WSState)
    (h : s.reconnectAttempts ≥ environmentWebsocket.maxReconnectAttempts) :
    attemptReconnection s =
      { s with
        status := WebSocketStatus.ERROR
        lastError := some "Max reconnection attempts reached" } := by
  unfold attemptReconnection
  rw [if_pos h]

theorem attemptReconnection_lt (s : WSState)
    (h : s.reconnectAttempts < environmentWebsocket.maxReconnectAttempts) :
    attemptReconnection s =
      { s with
        status := WebSocketStatus.RECONNECTING
        reconnectAttempts := s.reconnectAttempts + 1
        reconnectTimer := some (min (environmentWebsocket.reconnectInterval *
          2 ^ s.reconnectAttempts) 30000) } := by
  unfold attemptReconnection
  rw [if_neg (Nat.not_le_of_lt h)]
  simp

theorem onclose_ne (code : Nat) (s : WSState) (hc : code ≠ 1000) :
    onclose code s = attemptReconnection
      { s with
        status := WebSocketStatus.DISCONNECTED
        connectionTime := false
        reconnectTimer := none
        heartbeatTimer := false } := by
  unfold onclose clearTimers
  rw [if_pos hc]

theorem onclose_1000 (s : WSState) :
    onclose 1000 s =
      { s with
        status := WebSocketStatus.DISCONNECTED
        connectionTime := false
        reconnectTimer := none
        heartbeatTimer := false } := by
  unfold onclose clearTimers
  rw [if_neg (by simp)]

theorem handleConnectionError_eq (msg : String) (s : WSState) :
    handleConnectionError msg s = attemptReconnection
      { s with
        status := WebSocketStatus.ERROR
        lastError := some msg } := rfl

theorem forceReconnect_fields (s : WSState) :
    (forceReconnect s).socket = none ∧
    (forceReconnect s).status = WebSocketStatus.DISCONNECTED ∧
    (forceReconnect s).reconnectAttempts = 0 := by
  cases hs : s.socket <;> simp [forceReconnect, disconnect, clearTimers, hs]

/-- The state-machine invariant of the reconnection controller, preserved by
every event: a CONNECTING socket means status CONNECTING, a CONNECTED
status means a fresh attempt counter and an OPEN socket, an ERROR status
means the attempt counter is exhausted, and a DISCONNECTED status means no
live socket. -/
def WSInv (s : WSState) : Prop :=
  (s.socket = some SocketReadyState.CONNECTING →
    s.status = WebSocketStatus.CONNECTING) ∧
  (s.status = WebSocketStatus.CONNECTED →
    s.reconnectAttempts = 0 ∧ s.socket = some SocketReadyState.OPEN) ∧
  (s.status = WebSocketStatus.ERROR →
    s.reconnectAttempts ≥ environmentWebsocket.maxReconnectAttempts) ∧
  (s.status = WebSocketStatus.DISCONNECTED →
    s.socket = none ∨ s.socket = some SocketReadyState.CLOSED)

theorem WSInv_of_connecting (s : WSState)
    (h1 : s.status = WebSocketStatus.CONNECTING) : WSInv s :=
  ⟨fun _ => h1, fun hx => absurd (h1.symm.trans hx) (by decide),
   fun hx => absurd (h1.symm.trans hx) (by decide),
   fun hx => absurd (h1.symm.trans hx) (by decide)⟩

theorem WSInv_of_disc (s : WSState)
    (h1 : s.status = WebSocketStatus.DISCONNECTED)
    (h2 : s.socket = none ∨ s.socket = some SocketReadyState.CLOSED) : WSInv s := by
  refine ⟨fun hx => ?_, fun hx => absurd (h1.symm.trans hx) (by decide),
    fun hx => absurd (h1.symm.trans hx) (by decide), fun _ => h2⟩
  rcases h2 with h2 | h2 <;> rw [h2] at hx
  · exact absurd hx (by simp)
  · exact absurd hx (by simp)

theorem WSInv_of_reconnecting (s : WSState)
    (h1 : s.status = WebSocketStatus.RECONNECTING)
    (hsock : s.socket ≠ some SocketReadyState.CONNECTING) : WSInv s :=
  ⟨fun hx => absurd hx hsock, fun hx => absurd (h1.symm.trans hx) (by decide),
   fun hx => absurd (h1.symm.trans hx) (by decide),
   fun hx => absurd (h1.symm.trans hx) (by decide)⟩

theorem WSInv_of_error (s : WSState)
    (h1 : s.status = WebSocketStatus.ERROR)
    (hsock : s.socket ≠ some SocketReadyState.CONNECTING)
    (hmax : s.reconnectAttempts ≥ environmentWebsocket.maxReconnectAttempts) :
    WSInv s :=
  ⟨fun hx => absurd hx hsock, fun hx => absurd (h1.symm.trans hx) (by decide),
   fun _ => hmax, fun hx => absurd (h1.symm.trans hx) (by decide)⟩

theorem WSInv_of_connected (s : WSState)
    (h1 : s.status = WebSocketStatus.CONNECTED)
    (h2 : s.reconnectAttempts = 0)
    (h3 : s.socket = some SocketReadyState.OPEN) : WSInv s := by
  refine ⟨fun hx => ?_, fun _ => ⟨h2, h3⟩,
    fun hx => absurd (h1.symm.trans hx) (by decide),
    fun hx => absurd (h1.symm.trans hx) (by decide)⟩
  rw [h3] at hx
  exact absurd hx (by simp)

/-- The status transitions the code can actually make in one event, at
whole-handler granularity: stay put, move to CONNECTING on any connect,
move to DISCONNECTED on any disconnect or close, and the failure and
success edges of a connection attempt. -/
def codeStatusEdge (a b : WebSocketStatus) : Bool :=
  a == b || b == WebSocketStatus.CONNECTING || b == WebSocketStatus.DISCONNECTED ||
  (a == WebSocketStatus.CONNECTING &&
    (b == WebSocketStatus.CONNECTED || b == WebSocketStatus.RECONNECTING ||
     b == WebSocketStatus.ERROR)) ||
  (a == WebSocketStatus.CONNECTED && b == WebSocketStatus.RECONNECTING) ||
  (a == WebSocketStatus.RECONNECTING && b == WebSocketStatus.ERROR)

theorem edge_refl (a : WebSocketStatus) : codeStatusEdge a a = true := by
  cases a <;> rfl

theorem edge_to_connecting (a : WebSocketStatus) :
    codeStatusEdge a WebSocketStatus.CONNECTING = true := by
  cases a <;> rfl

theorem edge_to_disconnected (a : WebSocketStatus) :
    codeStatusEdge a WebSocketStatus.DISCONNECTED = true := by
  cases a <;> rfl

theorem edge_to_error_of (a : WebSocketStatus)
    (hD : a ≠ WebSocketStatus.DISCONNECTED)
    (hC : a ≠ WebSocketStatus.CONNECTED) :
    codeStatusEdge a WebSocketStatus.ERROR = true := by
  cases a <;> first | rfl | simp_all

theorem edge_to_reconnecting_of (a : WebSocketStatus)
    (hD : a ≠ WebSocketStatus.DISCONNECTED)
    (hE : a ≠ WebSocketStatus.ERROR) :
    codeStatusEdge a WebSocketStatus.RECONNECTING = true := by
  cases a <;> first | rfl | simp_all

theorem WSInv_step (s : WSState) (e : WSEvent) (h : WSInv s) :
    WSInv (step s e) ∧ codeStatusEdge s.status (step s e).status = true := by
  obtain ⟨i1, i2, i3, i4⟩ := h
  cases e with
  | evConnect =>
    simp only [step, connect]
    by_cases ho : s.socket = some SocketReadyState.OPEN
    · rw [if_pos ho]
      exact ⟨⟨i1, i2, i3, i4⟩, edge_refl _⟩
    · rw [if_neg ho]
      exact ⟨WSInv_of_connecting _ rfl, edge_to_connecting _⟩
  | evDisconnect =>
    have hd := disconnect_idle s
    refine ⟨WSInv_of_disc _ hd.2.2.2 (Or.inl hd.1), ?_⟩
    have h2 : (step s WSEvent.evDisconnect).status =
        WebSocketStatus.DISCONNECTED := hd.2.2.2
    rw [h2]
    exact edge_to_disconnected _
  | evForceReconnect =>
    have hf := forceReconnect_fields s
    refine ⟨WSInv_of_disc _ hf.2.1 (Or.inl hf.1), ?_⟩
    have h2 : (step s WSEvent.evForceReconnect).status =
        WebSocketStatus.DISCONNECTED := hf.2.1
    rw [h2]
    exact edge_to_disconnected _
  | evPendingFire =>
    simp only [step]
    by_cases hp : s.pendingConnect
    · rw [if_pos hp]
      simp only [connect]
      by_cases ho : s.socket = some SocketReadyState.OPEN
      · rw [if_pos ho]
        exact ⟨⟨i1, i2, i3, i4⟩, edge_refl _⟩
      · rw [if_neg ho]
        exact ⟨WSInv_of_connecting _ rfl, edge_to_connecting _⟩
    · rw [if_neg hp]
      exact ⟨⟨i1, i2, i3, i4⟩, edge_refl _⟩
  | evOpen =>
    simp only [step]
    by_cases hso : s.socket = some SocketReadyState.CONNECTING
    · rw [if_pos hso]
      have hst := i1 hso
      refine ⟨WSInv_of_connected _ rfl rfl rfl, ?_⟩
      rw [hst]
      rfl
    · rw [if_neg hso]
      exact ⟨⟨i1, i2, i3, i4⟩, edge_refl _⟩
  | evClose code =>
    cases hs : s.socket with
    | none =>
      simp only [step, hs]
      exact ⟨⟨i1, i2, i3, i4⟩, edge_refl _⟩
    | some st =>
      simp only [step, hs]
      by_cases hcl : st = SocketReadyState.CLOSED
      · rw [if_neg (by simp [hcl])]
        exact ⟨⟨i1, i2, i3, i4⟩, edge_refl _⟩
      · rw [if_pos hcl]
        have hD : s.status ≠ WebSocketStatus.DISCONNECTED := by
          intro hd
          rcases i4 hd with h0 | h0 <;> rw [hs] at h0
          · exact absurd h0 (by simp)
          · injection h0 with h0x
            exact hcl h0x
        by_cases hc : code ≠ 1000
        · rw [onclose_ne code _ hc]
          by_cases hge : s.reconnectAttempts ≥
              environmentWebsocket.maxReconnectAttempts
          · have hC : s.status ≠ WebSocketStatus.CONNECTED := by
              intro hcon
              have h0 := (i2 hcon).1
              have hge10 : s.reconnectAttempts ≥ 10 := hge
              omega
            rw [attemptReconnection_ge]
            · exact ⟨WSInv_of_error _ rfl (by simp) hge, edge_to_error_of _ hD hC⟩
            · exact hge
          · have hE : s.status ≠ WebSocketStatus.ERROR := by
              intro he
              exact hge (i3 he)
            rw [attemptReconnection_lt]
            · exact ⟨WSInv_of_reconnecting _ rfl (by simp),
                edge_to_reconnecting_of _ hD hE⟩
            · exact Nat.lt_of_not_le hge
        · have hc1000 : code = 1000 := not_not.mp hc
          subst hc1000
          rw [onclose_1000]
          exact ⟨WSInv_of_disc _ rfl (Or.inr rfl), edge_to_disconnected _⟩
  | evError =>
    cases hs : s.socket with
    | none =>
      simp only [step, hs]
      exact ⟨⟨i1, i2, i3, i4⟩, edge_refl _⟩
    | some st =>
      simp only [step, hs]
      by_cases hco : st = SocketReadyState.CONNECTING ∨ st = SocketReadyState.OPEN
      · rw [if_pos hco]
        rw [handleConnectionError_eq]
        have hD : s.status ≠ WebSocketStatus.DISCONNECTED := by
          intro hd
          rcases i4 hd with h0 | h0 <;> rw [hs] at h0
          · exact absurd h0 (by simp)
          · injection h0 with h0x
            rcases hco with rfl | rfl <;> simp_all
        by_cases hge : s.reconnectAttempts ≥
            environmentWebsocket.maxReconnectAttempts
        · have hC : s.status ≠ WebSocketStatus.CONNECTED := by
            intro hcon
            have h0 := (i2 hcon).1
            have hge10 : s.reconnectAttempts ≥ 10 := hge
            omega
          rw [attemptReconnection_ge]
          · exact ⟨WSInv_of_error _ rfl (by simp) hge, edge_to_error_of _ hD hC⟩
          · exact hge
        · have hE : s.status ≠ WebSocketStatus.ERROR := by
            intro he
            exact hge (i3 he)
          rw [attemptReconnection_lt]
          · exact ⟨WSInv_of_reconnecting _ rfl (by simp),
              edge_to_reconnecting_of _ hD hE⟩
          · exact Nat.lt_of_not_le hge
      · rw [if_neg hco]
        exact ⟨⟨i1, i2, i3, i4⟩, edge_refl _⟩
  | evTimerFire =>
    cases htm : s.reconnectTimer with
    | none =>
      simp only [step, htm]
      exact ⟨⟨i1, i2, i3, i4⟩, edge_refl _⟩
    | some d =>
      simp only [step, htm, connect]
      by_cases ho : s.socket = some SocketReadyState.OPEN
      · rw [if_pos ho]
        exact ⟨⟨i1, i2, i3, i4⟩, edge_refl _⟩
      · rw [if_neg ho]
        exact ⟨WSInv_of_connecting _ rfl, edge_to_connecting _⟩
  | evHeartbeat =>
    simp only [step, heartbeatTick]
    by_cases hh : s.heartbeatTimer
    · rw [if_pos hh]
      by_cases ho : s.socket = some SocketReadyState.OPEN
      · rw [if_pos ho]
        exact ⟨⟨i1, i2, i3, i4⟩, edge_refl _⟩
      · rw [if_neg ho]
        exact ⟨⟨i1, i2, i3, i4⟩, edge_refl _⟩
    · rw [if_neg hh]
      exact ⟨⟨i1, i2, i3, i4⟩, edge_refl _⟩
  | evMessage data =>
    have hc := handleIncomingMessage_conn data s
    simp only [step]
    refine ⟨⟨fun hx => ?_, fun hx => ?_, fun hx => ?_, fun hx => ?_⟩, ?_⟩
    · exact hc.2.1.trans (i1 (hc.1.symm.trans hx))
    · have h0 := i2 (hc.2.1.symm.trans hx)
      exact ⟨hc.2.2.2.2.1.trans h0.1, hc.1.trans h0.2⟩
    · rw [hc.2.2.2.2.1]
      exact i3 (hc.2.1.symm.trans hx)
    · rw [hc.1]
      exact i4 (hc.2.1.symm.trans hx)
    · rw [hc.2.1]
      exact edge_refl _

theorem WSInv_init : WSInv initWSState :=
  ⟨fun h => absurd h (by decide), fun h => absurd h (by decide),
   fun h => absurd h (by decide), fun _ => Or.inl rfl⟩

theorem connected_close_reconnecting (s : WSState) (c : Nat) (hinv : WSInv s)
    (hst : s.status = WebSocketStatus.CONNECTED) (hc : c ≠ 1000) :
    (step s (WSEvent.evClose c)).status = WebSocketStatus.RECONNECTING := by
  obtain ⟨i1, i2, i3, i4⟩ := hinv
  obtain ⟨ha0, hsock⟩ := i2 hst
  simp only [step, hsock]
  rw [if_pos (by simp)]
  rw [onclose_ne c _ hc]
  rw [attemptReconnection_lt]
  simp [ha0, environmentWebsocket]

/-- The state machine edges named by the claim, following the spec text:
DISCONNECTED to CONNECTING to CONNECTED to RECONNECTING to CONNECTING or
ERROR.  Written from the claim wording, to be compared with the transitions
the code actually makes. -/
def specStatusEdge : WebSocketStatus → WebSocketStatus → Bool
  | WebSocketStatus.DISCONNECTED, WebSocketStatus.CONNECTING => true
  | WebSocketStatus.CONNECTING, WebSocketStatus.CONNECTED => true
  | WebSocketStatus.CONNECTED, WebSocketStatus.RECONNECTING => true
  | WebSocketStatus.RECONNECTING, WebSocketStatus.CONNECTING => true
  | WebSocketStatus.RECONNECTING, WebSocketStatus.ERROR => true
  | _, _ => false

/-- C7 counterexample: the status does not move only along the edges of the
claimed state machine.  A first connection attempt that fails moves the
status from CONNECTING directly to RECONNECTING (one socket error event),
and a manual disconnect while connected moves CONNECTED to DISCONNECTED;
neither edge is in the claimed edge set. -/
theorem status_edges_counterexample :
    (run initWSState [WSEvent.evConnect]).status = WebSocketStatus.CONNECTING ∧
    (run initWSState [WSEvent.evConnect, WSEvent.evError]).status
      = WebSocketStatus.RECONNECTING ∧
    specStatusEdge WebSocketStatus.CONNECTING WebSocketStatus.RECONNECTING
      = false ∧
    openedWS.status = WebSocketStatus.CONNECTED ∧
    (step openedWS WSEvent.evDisconnect).status
      = WebSocketStatus.DISCONNECTED ∧
    specStatusEdge WebSocketStatus.CONNECTED WebSocketStatus.DISCONNECTED
      = false := by
  decide

/-- C7 amended: over the inductive invariant WSInv (which holds in the
initial state and is preserved by every event), each event moves the status
along codeStatusEdge, which extends the claimed edge set with the failure
edges of a connection attempt (CONNECTING to RECONNECTING or ERROR), the
edges into DISCONNECTED (manual disconnect or the close handler) and the
edges into CONNECTING (any explicit or scheduled connect); and the claimed
edge CONNECTED to RECONNECTING does hold: a non-manual close of a live
connection ends the handler with status RECONNECTING. -/
theorem status_edges_amended (s : WSState) (e : WSEvent) (hinv : WSInv s) :
    WSInv (step s e) ∧
    codeStatusEdge s.status (step s e).status = true ∧
    (∀ c, c ≠ 1000 → s.status = WebSocketStatus.CONNECTED →
      (step s (WSEvent.evClose c)).status = WebSocketStatus.RECONNECTING) ∧
    WSInv initWSState :=
  ⟨(WSInv_step s e hinv).1, (WSInv_step s e hinv).2,
   fun c hc hst => connected_close_reconnecting s c hinv hst hc,
   WSInv_init⟩

theorem status_edges_amended_witness :
    (WSInv openedWS) ∧
    (WSInv (step openedWS (WSEvent.evClose 1006)) ∧
    codeStatusEdge openedWS.status
      (step openedWS (WSEvent.evClose 1006)).status = true ∧
    (∀ c, c ≠ 1000 → openedWS.status = WebSocketStatus.CONNECTED →
      (step openedWS (WSEvent.evClose c)).status
        = WebSocketStatus.RECONNECTING) ∧
    WSInv initWSState) :=
  have hinv : WSInv openedWS :=
    ⟨fun hx => absurd hx (by decide), fun _ => ⟨rfl, rfl⟩,
     fun hx => absurd hx (by decide), fun hx => absurd hx (by decide)⟩
  ⟨hinv, status_edges_amended openedWS (WSEvent.evClose 1006) hinv⟩

/-! ## C1 -/

theorem hasId_of_mem (st : DedupStore) (sid mid : String) (t : Nat)
    (h : ((sid, mid), t) ∈ st.idRecords) : hasId st sid mid = true := by
  unfold hasId
  rw [List.any_eq_true]
  exact ⟨((sid, mid), t), h, by simp⟩

theorem checkAndRecord_dup (st : DedupStore) (sid mid fp : String) (now : Nat)
    (h : hasId st sid mid = true) :
    checkAndRecord sid mid fp now st = (Outcome.DUPLICATE_ID, st) := by
  unfold checkAndRecord
  rw [if_pos h]

theorem checkAndRecord_accept (st : DedupStore) (sid mid fp : String)
    (now : Nat) (h : hasId st sid mid = false)
    (h2 : hasFreshContent st fp now = false) :
    checkAndRecord sid mid fp now st =
      (Outcome.ACCEPT,
        { idRecords := ((sid, mid), now) :: st.idRecords
          contentRecords := (fp, now) :: st.contentRecords }) := by
  unfold checkAndRecord
  rw [if_neg (by simp [h]), if_neg (by simp [h2])]

theorem dedup_mem_checkAndRecord (st : DedupStore)
    (sid mid sid2 mid2 fp2 : String) (t now : Nat)
    (h : ((sid, mid), t) ∈ st.idRecords) :
    ((sid, mid), t) ∈ (checkAndRecord sid2 mid2 fp2 now st).2.idRecords := by
  unfold checkAndRecord
  by_cases h1 : hasId st sid2 mid2 = true
  · rw [if_pos h1]
    exact h
  · rw [if_neg h1]
    by_cases h2 : hasFreshContent st fp2 now = true
    · rw [if_pos h2]
      exact h
    · rw [if_neg h2]
      exact List.mem_cons_of_mem _ h

theorem dedup_mem_sweep (st : DedupStore) (sid mid : String) (t tsw : Nat)
    (h : ((sid, mid), t) ∈ st.idRecords) (hts : tsw ≤ t + idRetentionMs) :
    ((sid, mid), t) ∈ (sweep tsw st).idRecords := by
  unfold sweep
  simp only [List.mem_filter]
  refine ⟨h, ?_⟩
  simp only [decide_eq_true_eq, idRetentionMs] at hts ⊢
  omega

theorem dedupTrace_dup (sid mid : String) (t0 : Nat) (st : DedupStore)
    (ops : List DedupOp)
    (hmem : ((sid, mid), t0) ∈ st.idRecords)
    (hsweep : ∀ t, DedupOp.sweepRun t ∈ ops → t ≤ t0 + idRetentionMs) :
    ∀ fp now o, (DedupOp.submit sid mid fp now, o) ∈ dedupTrace st ops →
      o = some Outcome.DUPLICATE_ID := by
  induction ops generalizing st with
  | nil =>
    intro fp now o h
    simp [dedupTrace] at h
  | cons op rest ih =>
    intro fp now o h
    simp only [dedupTrace] at h
    rcases List.mem_cons.mp h with heq | hmem2
    · have hop := congrArg Prod.fst heq
      have hout := congrArg Prod.snd heq
      simp only at hop hout
      subst hop
      rw [hout]
      simp only [dedupStep]
      rw [checkAndRecord_dup st sid mid fp now (hasId_of_mem st sid mid t0 hmem)]
    · cases op with
      | submit s2 m2 f2 n2 =>
        exact ih (checkAndRecord s2 m2 f2 n2 st).2
          (dedup_mem_checkAndRecord st sid mid s2 m2 f2 t0 n2 hmem)
          (fun t ht => hsweep t (List.mem_cons_of_mem _ ht)) fp now o hmem2
      | sweepRun tsw =>
        exact ih (sweep tsw st)
          (dedup_mem_sweep st sid mid t0 tsw hmem
            (hsweep tsw (List.mem_cons_self _ _)))
          (fun t ht => hsweep t (List.mem_cons_of_mem _ ht)) fp now o hmem2

/-- C1: for a pair (sessionId, messageId) not yet recorded (and content not
within the short window), the first checkAndRecord returns ACCEPT, and
every subsequent submission of the same pair, whatever its fingerprint and
time, returns DUPLICATE_ID, across any interleaving of other submissions
and eviction sweeps that run within the retention window of the first
submission. -/
theorem dedup_exactly_one_accept (st0 : DedupStore) (sid mid fp : String)
    (t0 : Nat) (ops : List DedupOp)
    (hid : hasId st0 sid mid = false)
    (hfp : hasFreshContent st0 fp t0 = false)
    (hsweep : ∀ t, DedupOp.sweepRun t ∈ ops → t ≤ t0 + idRetentionMs) :
    (checkAndRecord sid mid fp t0 st0).1 = Outcome.ACCEPT ∧
    (∀ fp2 t2 o, (DedupOp.submit sid mid fp2 t2, o) ∈
        dedupTrace (checkAndRecord sid mid fp t0 st0).2 ops →
      o = some Outcome.DUPLICATE_ID) := by
  have he := checkAndRecord_accept st0 sid mid fp t0 hid hfp
  constructor
  · rw [he]
  · rw [he]
    exact dedupTrace_dup sid mid t0 _ ops (List.mem_cons_self _ _) hsweep

/-- The operation list of the C1 witness: a re-submission of the same pair
with a fresh fingerprint, an eviction sweep inside the retention window,
and a re-submission at the very end of the window. -/
def wDedupOps : List DedupOp :=
  [DedupOp.submit "s1" "m1" "f2" 5000,
   DedupOp.sweepRun 300000,
   DedupOp.submit "s1" "m1" "f1" 600000]

theorem dedup_exactly_one_accept_witness :
    (hasId emptyDedupStore "s1" "m1" = false) ∧
    (hasFreshContent emptyDedupStore "f1" 0 = false) ∧
    (∀ t, DedupOp.sweepRun t ∈ wDedupOps → t ≤ 0 + idRetentionMs) ∧
    ((checkAndRecord "s1" "m1" "f1" 0 emptyDedupStore).1 = Outcome.ACCEPT ∧
    (∀ fp2 t2 o, (DedupOp.submit "s1" "m1" fp2 t2, o) ∈
        dedupTrace (checkAndRecord "s1" "m1" "f1" 0 emptyDedupStore).2 wDedupOps →
      o = some Outcome.DUPLICATE_ID)) :=
  have hsw : ∀ t, DedupOp.sweepRun t ∈ wDedupOps → t ≤ 0 + idRetentionMs := by
    intro t ht
    simp [wDedupOps] at ht
    subst ht
    decide
  ⟨rfl, rfl, hsw,
    dedup_exactly_one_accept emptyDedupStore "s1" "m1" "f1" 0 wDedupOps rfl rfl hsw⟩
